import Mathlib

/-!
Shallow embedding of the filter/validation compiler of this repository
(`advanced_filter_validator.py`, `class_based_filter.py`, `dataset_validator.py`).

Python runtime values that can appear as a leaf's `value` or as a JSON node are
modelled by `PyVal`; JSON numbers are modelled as integers (no claim depends on
float semantics).  The sqlglot expression library is an external collaborator;
its node classes are modelled by the `Expr` inductive and its helpers
(`exp.and_`, `exp.or_`, `exp.true`) by `exp_and`, `exp_or`, `Expr.true_`.
Python exceptions are modelled by the `Err` type and fallible code returns
`Except Err _`.
-/

/-- A Python value as it can occur in the filter JSON or as a rule value:
strings, numbers (modelled as integers), booleans, `None`, bytes, lists and
dicts (JSON objects, modelled as ordered key/value association lists). -/
inductive PyVal where
  | str (s : String)
  | int (n : Int)
  | bool (b : Bool)
  | none
  | bytes (bs : List Nat)
  | list (xs : List PyVal)
  | obj (fields : List (String × PyVal))

/-- A sqlglot literal: `exp.Literal.string` or `exp.Literal.number`.
`Literal.number(v)` stores `str(v)`; we keep the Python value itself, which
loses no information used anywhere in the repository. -/
inductive Lit where
  | str (s : String)
  | num (v : PyVal)

/-- The sqlglot expression nodes used by the repository. -/
inductive Expr where
  | column (table : String) (name : String)
  | lit (l : Lit)
  | true_
  | null_
  | star
  | eq (l r : Expr)
  | neq (l r : Expr)
  | gt (l r : Expr)
  | lt (l r : Expr)
  | gte (l r : Expr)
  | lte (l r : Expr)
  | like (l r : Expr)
  | isNotE (l r : Expr)
  | inE (c : Expr) (es : List Expr)
  | andE (l r : Expr)
  | orE (l r : Expr)
  | count (e : Expr) (distinct : Bool)
  | tuple (es : List Expr)

/-- Python exceptions raised by the embedded code. -/
inductive Err where
  | valueError (msg : String)
  | typeError (msg : String)
  | keyError (msg : String)
  | indexError (msg : String)

/-- The `Dataset` class (advanced_filter_validator.py lines 82-119): table identity plus
target dialect. -/
structure Dataset where
  table_name : String
  dialect : String

/-- The method `Dataset.column_expr`: a column qualified by the dataset's table. -/
def Dataset.column_expr (ds : Dataset) (column : String) : Expr :=
  .column ds.table_name column

/-- Embeds `SimpleRule._to_literal` (advanced_filter_validator.py lines 166-168) and
`SingleValueMixin._literal` (class_based_filter.py lines 89-91), which are the
same one-liner: `exp.Literal.string(v) if isinstance(v, str) else
exp.Literal.number(v)`. -/
def to_literal : PyVal → Lit
  | .str s => .str s
  | v => .num v

/-- Embeds `isinstance(v, Iterable)` for the `PyVal` variants: strings, bytes, lists
and dicts are iterable; numbers, booleans and `None` are not. -/
def pyIterable : PyVal → Bool
  | .str _ => true
  | .bytes _ => true
  | .list _ => true
  | .obj _ => true
  | _ => false

/-- Embeds `isinstance(v, (str, bytes))`. -/
def pyStrOrBytes : PyVal → Bool
  | .str _ => true
  | .bytes _ => true
  | _ => false

/-- Python truthiness: the values that are falsy (`None`, `False`, `0`, empty
string/bytes/list/dict). -/
def pyFalsy : PyVal → Bool
  | .none => true
  | .bool b => !b
  | .int n => n == 0
  | .str s => s.isEmpty
  | .bytes bs => bs.isEmpty
  | .list xs => xs.isEmpty
  | .obj fs => fs.isEmpty

/-- Iterating a Python value: a string yields its one-character strings, bytes
yield integers, a list yields its elements, a dict yields its keys.  Only ever
applied by the embedded code after an iterability check; totalized with `[]`
on the non-iterable variants. -/
def iterElems : PyVal → List PyVal
  | .str s => s.data.map (fun c => .str c.toString)
  | .bytes bs => bs.map (fun b => .int (Int.ofNat b))
  | .list xs => xs
  | .obj fs => fs.map (fun p => .str p.1)
  | _ => []

/-- sqlglot `exp.and_(*conditions)`: left fold of the conditions under `AND`.
A single condition is returned unchanged.  (sqlglot additionally wraps nested
connector operands in semantically transparent parentheses for rendering; the
parenthesis nodes are omitted here.)  The embedded code never calls it on an
empty list; totalized with `TRUE`. -/
def exp_and : List Expr → Expr
  | [] => .true_
  | e :: rest => rest.foldl Expr.andE e

/-- sqlglot `exp.or_(*conditions)`: left fold under `OR`; see `exp_and`. -/
def exp_or : List Expr → Expr
  | [] => .true_
  | e :: rest => rest.foldl Expr.orE e

/-- Python `str.upper()`, modelled character-wise (the operator and combinator
strings of this repository are ASCII, where this agrees with Python). -/
def pyUpper (s : String) : String := ⟨s.data.map Char.toUpper⟩

/-- Python dict lookup on a JSON object, modelled as first-match lookup in the
association list (JSON object keys are unique). -/
def jLookup : List (String × PyVal) → String → Option PyVal
  | [], _ => Option.none
  | (k, v) :: rest, key => if k = key then some v else jLookup rest key

theorem jLookup_sizeOf (fields : List (String × PyVal)) (key : String) (v : PyVal)
    (h : jLookup fields key = some v) : sizeOf v < sizeOf fields := by
  induction fields with
  | nil => simp [jLookup] at h
  | cons p rest ih =>
    obtain ⟨k, w⟩ := p
    simp only [jLookup] at h
    by_cases hk : k = key
    · simp [hk] at h
      subst h
      simp
      omega
    · simp [hk] at h
      have := ih h
      simp
      omega

/-- The filter tree of `advanced_filter_validator.py`: `SimpleRule` leaves and
`GroupRule` nodes (the `FilterNode` hierarchy, lines 136-216). -/
inductive FilterNode where
  | simple (field : String) (operator : String) (value : PyVal)
  | group (combinator : String) (children : List FilterNode)

/-- Embeds `SimpleRule.expression` (advanced_filter_validator.py lines 170-194):
case-normalize the operator, qualify the column, coerce the value, and emit
the corresponding predicate; `IN` additionally requires an iterable,
non-str/bytes value; anything else raises `ValueError`. -/
def SimpleRule_expression (ds : Dataset) (field operator : String) (value : PyVal) :
    Except Err Expr :=
  let col := ds.column_expr field
  let op := pyUpper operator
  let val := value
  if op = "=" ∨ op = "==" then .ok (.eq col (.lit (to_literal val)))
  else if op = "!=" ∨ op = "<>" then .ok (.neq col (.lit (to_literal val)))
  else if op = ">" then .ok (.gt col (.lit (to_literal val)))
  else if op = "<" then .ok (.lt col (.lit (to_literal val)))
  else if op = ">=" then .ok (.gte col (.lit (to_literal val)))
  else if op = "<=" then .ok (.lte col (.lit (to_literal val)))
  else if op = "LIKE" then .ok (.like col (.lit (to_literal val)))
  else if op = "IN" then
    if !(pyIterable val) || pyStrOrBytes val then
      .error (.valueError "IN operator requires a sequence of values")
    else
      .ok (.inE col ((iterElems val).map (fun v => .lit (to_literal v))))
  else .error (.valueError ("Unsupported operator: " ++ operator))

mutual

/-- The `FilterNode.expression` dispatch: `SimpleRule.expression` on leaves and
`GroupRule.expression` (advanced_filter_validator.py lines 207-213) on groups:
compile the children in order, return `TRUE` for an empty group, else fold the
child predicates with the declared combinator. -/
def FilterNode_expression (ds : Dataset) : FilterNode → Except Err Expr
  | .simple f op v => SimpleRule_expression ds f op v
  | .group comb children =>
    match FilterNode_expressionList ds children with
    | .error e => .error e
    | .ok [] => .ok .true_
    | .ok ce => if comb = "AND" then .ok (exp_and ce) else .ok (exp_or ce)

/-- The list comprehension `[child.expression(dataset) for child in children]`:
children compiled left to right, the first error propagating. -/
def FilterNode_expressionList (ds : Dataset) : List FilterNode → Except Err (List Expr)
  | [] => .ok []
  | n :: rest =>
    match FilterNode_expression ds n with
    | .error e => .error e
    | .ok e =>
      match FilterNode_expressionList ds rest with
      | .error er => .error er
      | .ok es => .ok (e :: es)

end

/-- The `GroupRule.__init__` constructor (advanced_filter_validator.py lines
200-205): upper-case the combinator and reject anything other than AND/OR.
(The quotes of the source message are elided.) -/
def GroupRule_mk (combinator : String) (children : List FilterNode) :
    Except Err FilterNode :=
  let c := pyUpper combinator
  if c = "AND" ∨ c = "OR" then .ok (.group c children)
  else .error (.valueError "combinator must be AND or OR")

mutual

/-- The inner `parse` of `FilterExpression.from_json`
(advanced_filter_validator.py lines 234-243): a node carrying a `field` key is
a leaf, built with `n.get("value")` (so a missing value silently defaults to
`None`); otherwise a `combinator` is required and the children under `rules`
(default `[]`) are parsed recursively.  The source stores a non-string field
or operator unchecked and would only fail later (at render or at
`operator.upper()` in compile); since no claim involves such nodes, they are
modelled as an immediate `TypeError`.  A non-dict node or a non-list `rules`
value likewise surfaces as a `TypeError` here. -/
def afv_parse (n : PyVal) : Except Err FilterNode :=
  match n with
  | .obj fields =>
    match jLookup fields "field" with
    | some fv =>
      match fv, jLookup fields "operator" with
      | .str f, some (.str op) => .ok (.simple f op ((jLookup fields "value").getD .none))
      | _, Option.none => .error (.keyError "operator")
      | _, _ => .error (.typeError "field and operator must be strings")
    | Option.none =>
      match jLookup fields "combinator" with
      | Option.none => .error (.valueError "Group rule missing combinator")
      | some (.str comb) =>
        match _h : jLookup fields "rules" with
        | some (.list xs) =>
          match afv_parseList xs with
          | .error e => .error e
          | .ok children => GroupRule_mk comb children
        | Option.none => GroupRule_mk comb []
        | some _ => .error (.typeError "rules must be a list")
      | some _ => .error (.typeError "combinator must be a string")
  | _ => .error (.typeError "filter node must be a dict")
termination_by sizeOf n
decreasing_by
  have := jLookup_sizeOf fields "rules" (PyVal.list xs) _h
  simp at this ⊢
  omega

/-- The list comprehension `[parse(child) for child in children_defs]`. -/
def afv_parseList (nodes : List PyVal) : Except Err (List FilterNode) :=
  match nodes with
  | [] => .ok []
  | n :: rest =>
    match afv_parse n with
    | .error e => .error e
    | .ok c =>
      match afv_parseList rest with
      | .error e => .error e
      | .ok cs => .ok (c :: cs)
termination_by sizeOf nodes

end

/-- The `ValidationRule` hierarchy of `advanced_filter_validator.py`
(lines 255-327): `NotNullRule`, `UniqueValuesRule`, `AllowedValuesRule`,
`RangeRule`. -/
inductive ValidationRule where
  | notNull (column : String)
  | uniqueValues (columns : List String)
  | allowedValues (column : String) (allowed : List PyVal)
  | rangeRule (column : String) (minimum maximum : Option Int)

/-- Embeds `RangeRule.__init__` (advanced_filter_validator.py lines 313-318): reject
construction when both bounds are absent. -/
def RangeRule_mk (column : String) (minimum maximum : Option Int) :
    Except Err ValidationRule :=
  match minimum, maximum with
  | Option.none, Option.none =>
    .error (.valueError "At least one of minimum or maximum must be provided")
  | _, _ => .ok (.rangeRule column minimum maximum)

/-- The `expression` methods of the validation rules (advanced_filter_validator.py lines
275-327).  The range case mirrors `exp.and_(*parts) if len(parts) > 1 else
parts[0]`; with both bounds absent `parts[0]` would raise `IndexError`
(unreachable behind the constructor invariant). -/
def ValidationRule_expression (ds : Dataset) : ValidationRule → Except Err Expr
  | .notNull c => .ok (.isNotE (ds.column_expr c) .null_)
  | .uniqueValues cs =>
    let cols := cs.map ds.column_expr
    let total_count := Expr.count .star false
    match cols with
    | [c] => .ok (.eq total_count (.count c true))
    | _ => .ok (.eq total_count (.count (.tuple cols) true))
  | .allowedValues c allowed =>
    .ok (.inE (ds.column_expr c) (allowed.map (fun v => .lit (to_literal v))))
  | .rangeRule c minimum maximum =>
    let col := ds.column_expr c
    let parts : List Expr :=
      (match minimum with
       | some m => [.gte col (.lit (.num (.int m)))]
       | Option.none => []) ++
      (match maximum with
       | some m => [.lte col (.lit (.num (.int m)))]
       | Option.none => [])
    if parts.length > 1 then .ok (exp_and parts)
    else
      match parts with
      | p :: _ => .ok p
      | [] => .error (.indexError "list index out of range")

/-- The list comprehension `[rule.expression(dataset) for rule in rules]` of
`QueryBuilder.combined_condition`. -/
def ruleExprList (ds : Dataset) : List ValidationRule → Except Err (List Expr)
  | [] => .ok []
  | r :: rest =>
    match ValidationRule_expression ds r with
    | .error e => .error e
    | .ok e =>
      match ruleExprList ds rest with
      | .error er => .error er
      | .ok es => .ok (e :: es)

/-- The `QueryBuilder` class (advanced_filter_validator.py lines 330-352); the filter
expression is represented by its root node. -/
structure QueryBuilder where
  dataset : Dataset
  filter_root : FilterNode
  validation_rules : List ValidationRule

/-- Embeds `QueryBuilder.combined_condition` (advanced_filter_validator.py lines
354-359): `all_conditions = [filter_condition] + rule_conditions`, then
`exp.and_(*all_conditions) if len(all_conditions) > 1 else all_conditions[0]`. -/
def combined_condition (qb : QueryBuilder) : Except Err Expr :=
  match FilterNode_expression qb.dataset qb.filter_root with
  | .error e => .error e
  | .ok filter_condition =>
    match ruleExprList qb.dataset qb.validation_rules with
    | .error e => .error e
    | .ok rule_conditions =>
      match rule_conditions with
      | [] => .ok filter_condition
      | _ => .ok (exp_and (filter_condition :: rule_conditions))

mutual

/-- The inner `collect` of `QueryBuilder.generate_sql` (advanced_filter_validator.py
lines 378-383): append the field of every `SimpleRule`, recursing into
`GroupRule` children in order (depth-first, pre-order). -/
def collect : FilterNode → List String
  | .simple f _ _ => [f]
  | .group _ children => collectList children

/-- The `for child in node.children: collect(child)` loop. -/
def collectList : List FilterNode → List String
  | [] => []
  | n :: rest => collect n ++ collectList rest

end

/-- The per-rule column contribution of `generate_sql` (advanced_filter_validator.py
lines 386-390): `column` for `NotNullRule`/`AllowedValuesRule`/`RangeRule`,
all of `columns` for `UniqueValuesRule`. -/
def ruleCols : ValidationRule → List String
  | .notNull c => [c]
  | .allowedValues c _ => [c]
  | .rangeRule c _ _ => [c]
  | .uniqueValues cs => cs

/-- The dedup of `generate_sql` (advanced_filter_validator.py lines 392-393):
`seen = set(); [c for c in referenced if not (c in seen or seen.add(c))]`,
with the set modelled as the list of names already kept. -/
def dedupFirstAux (seen : List String) : List String → List String
  | [] => []
  | c :: rest =>
    if c ∈ seen then dedupFirstAux seen rest
    else c :: dedupFirstAux (c :: seen) rest

/-- The list `unique_cols`: order-preserving de-duplication of the referenced columns. -/
def dedupFirst (l : List String) : List String := dedupFirstAux [] l

/-- The rendered query shape handed to sqlglot in `generate_sql`:
`SELECT <*|cols> FROM <table> WHERE <predicate>`. -/
structure Query where
  select_star : Bool
  select_cols : List Expr
  table : String
  where_expr : Expr

/-- Embeds `QueryBuilder.generate_sql` (advanced_filter_validator.py lines 361-396),
up to the final dialect-specific text rendering (owned by sqlglot): the
combined condition plus either `*` or the de-duplicated referenced columns. -/
def generate_sql (qb : QueryBuilder) (select_all : Bool) : Except Err Query :=
  match combined_condition qb with
  | .error e => .error e
  | .ok where_expr =>
    if select_all then .ok ⟨true, [], qb.dataset.table_name, where_expr⟩
    else
      let referenced : List String :=
        collect qb.filter_root ++ List.flatten (qb.validation_rules.map ruleCols)
      let unique_cols := dedupFirst referenced
      let cols := unique_cols.map qb.dataset.column_expr
      .ok ⟨false, cols, qb.dataset.table_name, where_expr⟩

/-- Modelled from the spec (§4.5, C4): the projected column list keeps each
name at the position of its first occurrence — fold left over the referenced
names, appending a name only when it has not been kept yet. -/
def specProjection (l : List String) : List String :=
  l.foldl (fun acc c => if c ∈ acc then acc else acc ++ [c]) []

/-- Embeds `UniqueValuesRule.expression` of `dataset_validator.py` (lines 164-176),
a duplicate of the rule in `advanced_filter_validator.py` (the unused local
`table_expr` of the source is dropped). -/
def dv_UniqueValuesRule_expression (ds : Dataset) (columns : List String) : Expr :=
  let cols := columns.map ds.column_expr
  let total_count := Expr.count .star false
  match cols with
  | [c] => .eq total_count (.count c true)
  | _ => .eq total_count (.count (.tuple cols) true)

/-- Embeds `RangeRule.__init__` of `dataset_validator.py` (lines 205-210): reject
construction when both bounds are absent; returns the stored fields. -/
def dv_RangeRule_mk (column : String) (minimum maximum : Option Int) :
    Except Err (String × Option Int × Option Int) :=
  match minimum, maximum with
  | Option.none, Option.none =>
    .error (.valueError "At least one of minimum or maximum must be provided")
  | _, _ => .ok (column, minimum, maximum)

/-- Embeds `RangeRule.expression` of `dataset_validator.py` (lines 212-220), a
duplicate of the rule in `advanced_filter_validator.py`. -/
def dv_RangeRule_expression (ds : Dataset) (column : String)
    (minimum maximum : Option Int) : Except Err Expr :=
  let col := ds.column_expr column
  let exprs : List Expr :=
    (match minimum with
     | some m => [.gte col (.lit (.num (.int m)))]
     | Option.none => []) ++
    (match maximum with
     | some m => [.lte col (.lit (.num (.int m)))]
     | Option.none => [])
  if exprs.length > 1 then .ok (exp_and exprs)
  else
    match exprs with
    | p :: _ => .ok p
    | [] => .error (.indexError "list index out of range")

/-- The filter rule tree of `class_based_filter.py`: one constructor per rule
class (`EqualsFilter`, ..., `InFilter`, `LogicalGroup`).  `InFilter` stores
`tuple(values)` (via `ListValueMixin`), i.e. the iterated elements of the
value it was given. -/
inductive CBRule where
  | equalsF (field : String) (value : PyVal)
  | notEqualsF (field : String) (value : PyVal)
  | greaterThanF (field : String) (value : PyVal)
  | lessThanF (field : String) (value : PyVal)
  | greaterOrEqualF (field : String) (value : PyVal)
  | lessOrEqualF (field : String) (value : PyVal)
  | likeF (field : String) (value : PyVal)
  | inF (field : String) (values : List PyVal)
  | logicalGroup (combinator : String) (children : List CBRule)

mutual

/-- The `expression` methods of `class_based_filter.py` (lines 104-170): each
comparison class emits its predicate over the qualified column and coerced
value; `LogicalGroup.expression` compiles the children in order, returns
`TRUE` when there are none, and otherwise folds with AND or OR. -/
def CBRule_expression (ds : Dataset) : CBRule → Expr
  | .equalsF f v => .eq (ds.column_expr f) (.lit (to_literal v))
  | .notEqualsF f v => .neq (ds.column_expr f) (.lit (to_literal v))
  | .greaterThanF f v => .gt (ds.column_expr f) (.lit (to_literal v))
  | .lessThanF f v => .lt (ds.column_expr f) (.lit (to_literal v))
  | .greaterOrEqualF f v => .gte (ds.column_expr f) (.lit (to_literal v))
  | .lessOrEqualF f v => .lte (ds.column_expr f) (.lit (to_literal v))
  | .likeF f v => .like (ds.column_expr f) (.lit (to_literal v))
  | .inF f vs => .inE (ds.column_expr f) (vs.map (fun v => .lit (to_literal v)))
  | .logicalGroup comb children =>
    match CBRule_expressionList ds children with
    | [] => .true_
    | ce => if comb = "AND" then exp_and ce else exp_or ce

/-- The list comprehension `[child.expression(dataset) for child in children]`
of `LogicalGroup.expression`. -/
def CBRule_expressionList (ds : Dataset) : List CBRule → List Expr
  | [] => []
  | r :: rest => CBRule_expression ds r :: CBRule_expressionList ds rest

end

/-- Embeds `LogicalGroup.__init__` (class_based_filter.py lines 158-164): upper-case
the combinator and reject anything other than AND/OR. -/
def LogicalGroup_mk (combinator : String) (children : List CBRule) :
    Except Err CBRule :=
  let c := pyUpper combinator
  if c = "AND" ∨ c = "OR" then .ok (.logicalGroup c children)
  else .error (.valueError "combinator must be AND or OR")

/-- The rule classes that `FilterParser.OPERATOR_MAP` can map an operator to. -/
inductive FilterRuleClass where
  | equalsC
  | notEqualsC
  | greaterThanC
  | lessThanC
  | greaterOrEqualC
  | lessOrEqualC
  | likeC
  | inC

/-- Embeds `FilterParser.OPERATOR_MAP` (class_based_filter.py lines 180-191). -/
def OPERATOR_MAP (op : String) : Option FilterRuleClass :=
  if op = "=" then some .equalsC
  else if op = "==" then some .equalsC
  else if op = "!=" then some .notEqualsC
  else if op = "<>" then some .notEqualsC
  else if op = ">" then some .greaterThanC
  else if op = "<" then some .lessThanC
  else if op = ">=" then some .greaterOrEqualC
  else if op = "<=" then some .lessOrEqualC
  else if op = "LIKE" then some .likeC
  else if op = "IN" then some .inC
  else Option.none

/-- Embeds `rule_cls(node["field"], value)`: construct the rule object of the mapped
class; `InFilter` stores `tuple(value)`, the other classes store the value
itself. -/
def mkFilterRule : FilterRuleClass → String → PyVal → CBRule
  | .equalsC, f, v => .equalsF f v
  | .notEqualsC, f, v => .notEqualsF f v
  | .greaterThanC, f, v => .greaterThanF f v
  | .lessThanC, f, v => .lessThanF f v
  | .greaterOrEqualC, f, v => .greaterOrEqualF f v
  | .lessOrEqualC, f, v => .lessOrEqualF f v
  | .likeC, f, v => .likeF f v
  | .inC, f, v => .inF f (iterElems v)

mutual

/-- Embeds `FilterParser.parse` (class_based_filter.py lines 193-210): a node with a
`field` key is a leaf — upper-case its operator, look it up in
`OPERATOR_MAP` (unknown operator raises `ValueError`), for `IN` require any
iterable value (note: a plain string passes this check), and construct the
rule class with `node.get("value")` (missing value defaults to `None`).
Otherwise a falsy or missing `combinator` raises, and the children under
`rules` (default `[]`) are parsed recursively into a `LogicalGroup`.  As in
`afv_parse`, a non-string field/operator, a non-dict node and a non-list
`rules` value are modelled as an immediate `TypeError`. -/
def FilterParser_parse (node : PyVal) : Except Err CBRule :=
  match node with
  | .obj fields =>
    match jLookup fields "field" with
    | some fv =>
      match jLookup fields "operator" with
      | Option.none => .error (.keyError "operator")
      | some (.str opRaw) =>
        let op := pyUpper opRaw
        let value := (jLookup fields "value").getD .none
        match OPERATOR_MAP op with
        | Option.none => .error (.valueError ("Unsupported operator: " ++ op))
        | some rule_cls =>
          if op = "IN" && !(pyIterable value) then
            .error (.valueError "IN operator requires a list of values")
          else
            match fv with
            | .str f => .ok (mkFilterRule rule_cls f value)
            | _ => .error (.typeError "field must be a string")
      | some _ => .error (.typeError "operator must be a string")
    | Option.none =>
      match jLookup fields "combinator" with
      | Option.none => .error (.valueError "Group node missing combinator")
      | some cv =>
        if pyFalsy cv then .error (.valueError "Group node missing combinator")
        else
          match cv with
          | .str comb =>
            match _h : jLookup fields "rules" with
            | some (.list xs) =>
              match FilterParser_parseList xs with
              | .error e => .error e
              | .ok children => LogicalGroup_mk comb children
            | Option.none => LogicalGroup_mk comb []
            | some _ => .error (.typeError "rules must be a list")
          | _ => .error (.typeError "combinator must be a string")
  | _ => .error (.typeError "filter node must be a dict")
termination_by sizeOf node
decreasing_by
  have := jLookup_sizeOf fields "rules" (PyVal.list xs) _h
  simp at this ⊢
  omega

/-- The list comprehension `[cls.parse(child) for child in node.get("rules", [])]`. -/
def FilterParser_parseList (nodes : List PyVal) : Except Err (List CBRule) :=
  match nodes with
  | [] => .ok []
  | n :: rest =>
    match FilterParser_parse n with
    | .error e => .error e
    | .ok c =>
      match FilterParser_parseList rest with
      | .error e => .error e
      | .ok cs => .ok (c :: cs)
termination_by sizeOf nodes

end

theorem mem_dedupFirstAux (seen l : List String) (c : String) :
    c ∈ dedupFirstAux seen l ↔ c ∈ l ∧ c ∉ seen := by
  induction l generalizing seen with
  | nil => simp [dedupFirstAux]
  | cons x rest ih =>
    simp only [dedupFirstAux]
    by_cases hx : x ∈ seen
    · rw [if_pos hx, ih]
      simp only [List.mem_cons]
      constructor
      · rintro ⟨h1, h2⟩
        exact ⟨Or.inr h1, h2⟩
      · rintro ⟨h1 | h1, h2⟩
        · subst h1
          exact absurd hx h2
        · exact ⟨h1, h2⟩
    · rw [if_neg hx]
      simp only [List.mem_cons, ih, List.mem_cons]
      by_cases hcx : c = x
      · subst hcx
        simp [hx]
      · simp [hcx]

theorem nodup_dedupFirstAux (seen l : List String) : (dedupFirstAux seen l).Nodup := by
  induction l generalizing seen with
  | nil => simp [dedupFirstAux]
  | cons x rest ih =>
    simp only [dedupFirstAux]
    by_cases hx : x ∈ seen
    · rw [if_pos hx]
      exact ih seen
    · rw [if_neg hx]
      refine List.nodup_cons.mpr ⟨?_, ih _⟩
      intro hmem
      rw [mem_dedupFirstAux] at hmem
      exact hmem.2 (List.mem_cons_self x seen)

theorem foldl_dedup_eq (l acc seen : List String)
    (h : ∀ c, c ∈ seen ↔ c ∈ acc) :
    l.foldl (fun acc c => if c ∈ acc then acc else acc ++ [c]) acc
      = acc ++ dedupFirstAux seen l := by
  induction l generalizing acc seen with
  | nil => simp [dedupFirstAux]
  | cons x rest ih =>
    simp only [List.foldl_cons, dedupFirstAux]
    by_cases hx : x ∈ seen
    · rw [if_pos ((h x).mp hx), if_pos hx]
      exact ih acc seen h
    · rw [if_neg (fun hc => hx ((h x).mpr hc)), if_neg hx]
      rw [ih (acc ++ [x]) (x :: seen) (by intro c; simp [h c]; tauto)]
      simp

theorem specProjection_eq_dedupFirst (l : List String) :
    specProjection l = dedupFirst l := by
  simpa [specProjection, dedupFirst] using foldl_dedup_eq l [] [] (by simp)

/-- C1: for `GroupRule.expression` (advanced_filter_validator.py) and
`LogicalGroup.expression` (class_based_filter.py), with either combinator:
zero children compile to TRUE, one child compiles to exactly that child's
predicate, and two or more children compile to the left fold of the child
predicates, in declaration order, under the declared combinator. -/
theorem claim_C1 :
    (∀ (ds : Dataset) (comb : String), comb = "AND" ∨ comb = "OR" →
      FilterNode_expression ds (.group comb []) = .ok .true_)
    ∧ (∀ (ds : Dataset) (children : List FilterNode) (e : Expr) (rest : List Expr),
        FilterNode_expressionList ds children = .ok (e :: rest) →
        FilterNode_expression ds (.group "AND" children) = .ok (rest.foldl Expr.andE e)
        ∧ FilterNode_expression ds (.group "OR" children) = .ok (rest.foldl Expr.orE e))
    ∧ (∀ (ds : Dataset) (child : FilterNode) (e : Expr) (comb : String),
        comb = "AND" ∨ comb = "OR" →
        FilterNode_expression ds child = .ok e →
        FilterNode_expression ds (.group comb [child]) = .ok e)
    ∧ (∀ (ds : Dataset) (comb : String), comb = "AND" ∨ comb = "OR" →
      CBRule_expression ds (.logicalGroup comb []) = .true_)
    ∧ (∀ (ds : Dataset) (c : CBRule) (children : List CBRule),
        CBRule_expression ds (.logicalGroup "AND" (c :: children))
          = (children.map (CBRule_expression ds)).foldl Expr.andE (CBRule_expression ds c)
        ∧ CBRule_expression ds (.logicalGroup "OR" (c :: children))
          = (children.map (CBRule_expression ds)).foldl Expr.orE (CBRule_expression ds c))
    ∧ (∀ (ds : Dataset) (child : CBRule) (comb : String),
        comb = "AND" ∨ comb = "OR" →
        CBRule_expression ds (.logicalGroup comb [child]) = CBRule_expression ds child) := by
  have hcbl : ∀ (ds : Dataset) (children : List CBRule),
      CBRule_expressionList ds children = children.map (CBRule_expression ds) := by
    intro ds children
    induction children with
    | nil => simp [CBRule_expressionList]
    | cons c rest ih => simp [CBRule_expressionList, ih]
  refine ⟨?_, ?_, ?_, ?_, ?_, ?_⟩
  · intro ds comb _
    simp [FilterNode_expression, FilterNode_expressionList]
  · intro ds children e rest h
    constructor <;>
      · simp only [FilterNode_expression]
        rw [h]
        simp [exp_and, exp_or]
  · intro ds child e comb hcomb h
    have hl : FilterNode_expressionList ds [child] = .ok [e] := by
      simp [FilterNode_expressionList, h]
    rcases hcomb with rfl | rfl <;>
      · simp only [FilterNode_expression]
        rw [hl]
        simp [exp_and, exp_or]
  · intro ds comb _
    simp [CBRule_expression, CBRule_expressionList]
  · intro ds c children
    constructor <;> simp [CBRule_expression, hcbl, exp_and, exp_or]
  · intro ds child comb hcomb
    rcases hcomb with rfl | rfl <;> simp [CBRule_expression, CBRule_expressionList, exp_and, exp_or]

/-- C1 witness: the clauses instantiated at concrete inputs. -/
theorem claim_C1_witness :
    FilterNode_expression ⟨"t", "duckdb"⟩ (.group "OR" []) = .ok .true_
    ∧ FilterNode_expression ⟨"t", "duckdb"⟩
        (.group "AND" [.simple "a" ">" (.int 1), .simple "b" "<" (.int 2)])
      = .ok (.andE (.gt (.column "t" "a") (.lit (.num (.int 1))))
          (.lt (.column "t" "b") (.lit (.num (.int 2)))))
    ∧ FilterNode_expression ⟨"t", "duckdb"⟩ (.group "OR" [.simple "a" "=" (.str "x")])
      = .ok (.eq (.column "t" "a") (.lit (.str "x")))
    ∧ CBRule_expression ⟨"t", "duckdb"⟩ (.logicalGroup "AND" []) = .true_
    ∧ CBRule_expression ⟨"t", "duckdb"⟩ (.logicalGroup "OR" [.equalsF "a" (.str "x")])
      = .eq (.column "t" "a") (.lit (.str "x")) := by
  refine ⟨claim_C1.1 _ "OR" (Or.inr rfl), ?_, ?_,
    claim_C1.2.2.2.1 _ "AND" (Or.inl rfl),
    claim_C1.2.2.2.2.2 _ _ "OR" (Or.inr rfl)⟩
  · have h : FilterNode_expressionList ⟨"t", "duckdb"⟩
        [.simple "a" ">" (.int 1), .simple "b" "<" (.int 2)]
        = .ok [.gt (.column "t" "a") (.lit (.num (.int 1))),
            .lt (.column "t" "b") (.lit (.num (.int 2)))] := by
      simp [FilterNode_expressionList, FilterNode_expression, SimpleRule_expression,
        pyUpper, Dataset.column_expr, to_literal]
    exact (claim_C1.2.1 _ _ _ _ h).1
  · have h : FilterNode_expression ⟨"t", "duckdb"⟩ (.simple "a" "=" (.str "x"))
        = .ok (.eq (.column "t" "a") (.lit (.str "x"))) := by
      simp [FilterNode_expression, SimpleRule_expression, pyUpper,
        Dataset.column_expr, to_literal]
    exact claim_C1.2.2.1 _ _ _ "OR" (Or.inr rfl) h

/-- The operator set named by the spec: `=, ==, !=, <>, >, <, >=, <=, LIKE, IN`
(exactly the keys of `FilterParser.OPERATOR_MAP` and the operators tested by
`SimpleRule.expression`). -/
def recognizedOps : List String :=
  ["=", "==", "!=", "<>", ">", "<", ">=", "<=", "LIKE", "IN"]

theorem OPERATOR_MAP_eq_none_iff (op : String) :
    OPERATOR_MAP op = Option.none ↔ op ∉ recognizedOps := by
  simp only [OPERATOR_MAP, recognizedOps, List.mem_cons, List.not_mem_nil]
  split_ifs <;> simp_all

/-- C2: every recognized operator (after case-normalization) compiles to its
documented predicate kind over the qualified column and coerced value, in both
`SimpleRule.expression` and `FilterParser.parse`; an operator outside the set
fails with a `ValueError` naming the operator. -/
theorem claim_C2 :
    (∀ (ds : Dataset) (f : String) (v : PyVal),
      SimpleRule_expression ds f "=" v = .ok (.eq (ds.column_expr f) (.lit (to_literal v)))
      ∧ SimpleRule_expression ds f "==" v = .ok (.eq (ds.column_expr f) (.lit (to_literal v)))
      ∧ SimpleRule_expression ds f "!=" v = .ok (.neq (ds.column_expr f) (.lit (to_literal v)))
      ∧ SimpleRule_expression ds f "<>" v = .ok (.neq (ds.column_expr f) (.lit (to_literal v)))
      ∧ SimpleRule_expression ds f ">" v = .ok (.gt (ds.column_expr f) (.lit (to_literal v)))
      ∧ SimpleRule_expression ds f "<" v = .ok (.lt (ds.column_expr f) (.lit (to_literal v)))
      ∧ SimpleRule_expression ds f ">=" v = .ok (.gte (ds.column_expr f) (.lit (to_literal v)))
      ∧ SimpleRule_expression ds f "<=" v = .ok (.lte (ds.column_expr f) (.lit (to_literal v)))
      ∧ SimpleRule_expression ds f "LIKE" v = .ok (.like (ds.column_expr f) (.lit (to_literal v)))
      ∧ SimpleRule_expression ds f "like" v = .ok (.like (ds.column_expr f) (.lit (to_literal v))))
    ∧ (∀ (ds : Dataset) (f : String) (vs : List PyVal),
      SimpleRule_expression ds f "IN" (.list vs)
        = .ok (.inE (ds.column_expr f) (vs.map (fun v => .lit (to_literal v))))
      ∧ SimpleRule_expression ds f "in" (.list vs)
        = .ok (.inE (ds.column_expr f) (vs.map (fun v => .lit (to_literal v)))))
    ∧ (∀ (ds : Dataset) (f op : String) (v : PyVal),
      pyUpper op ∉ recognizedOps →
      SimpleRule_expression ds f op v
        = .error (.valueError ("Unsupported operator: " ++ op)))
    ∧ (∀ (f : String) (v : PyVal),
      FilterParser_parse (.obj [("field", .str f), ("operator", .str "="), ("value", v)])
        = .ok (.equalsF f v)
      ∧ FilterParser_parse (.obj [("field", .str f), ("operator", .str "=="), ("value", v)])
        = .ok (.equalsF f v)
      ∧ FilterParser_parse (.obj [("field", .str f), ("operator", .str "!="), ("value", v)])
        = .ok (.notEqualsF f v)
      ∧ FilterParser_parse (.obj [("field", .str f), ("operator", .str "<>"), ("value", v)])
        = .ok (.notEqualsF f v)
      ∧ FilterParser_parse (.obj [("field", .str f), ("operator", .str ">"), ("value", v)])
        = .ok (.greaterThanF f v)
      ∧ FilterParser_parse (.obj [("field", .str f), ("operator", .str "<"), ("value", v)])
        = .ok (.lessThanF f v)
      ∧ FilterParser_parse (.obj [("field", .str f), ("operator", .str ">="), ("value", v)])
        = .ok (.greaterOrEqualF f v)
      ∧ FilterParser_parse (.obj [("field", .str f), ("operator", .str "<="), ("value", v)])
        = .ok (.lessOrEqualF f v)
      ∧ FilterParser_parse (.obj [("field", .str f), ("operator", .str "like"), ("value", v)])
        = .ok (.likeF f v))
    ∧ (∀ (f : String) (vs : List PyVal),
      FilterParser_parse (.obj [("field", .str f), ("operator", .str "IN"), ("value", .list vs)])
        = .ok (.inF f vs))
    ∧ (∀ (f op : String) (v : PyVal),
      pyUpper op ∉ recognizedOps →
      FilterParser_parse (.obj [("field", .str f), ("operator", .str op), ("value", v)])
        = .error (.valueError ("Unsupported operator: " ++ pyUpper op))) := by
  have hlike : pyUpper "like" = "LIKE" := by decide
  have hin : pyUpper "in" = "IN" := by decide
  refine ⟨?_, ?_, ?_, ?_, ?_, ?_⟩
  · intro ds f v
    refine ⟨?_, ?_, ?_, ?_, ?_, ?_, ?_, ?_, ?_, ?_⟩ <;>
      simp [SimpleRule_expression, pyUpper, hlike]
  · intro ds f vs
    constructor <;> simp [SimpleRule_expression, pyUpper, hin, pyIterable, pyStrOrBytes, iterElems]
  · intro ds f op v h
    simp only [recognizedOps, List.mem_cons, List.not_mem_nil, or_false] at h
    push_neg at h
    obtain ⟨h1, h2, h3, h4, h5, h6, h7, h8, h9, h10⟩ := h
    simp [SimpleRule_expression, h1, h2, h3, h4, h5, h6, h7, h8, h9, h10]
  · intro f v
    refine ⟨?_, ?_, ?_, ?_, ?_, ?_, ?_, ?_, ?_⟩ <;>
      simp [FilterParser_parse, jLookup, OPERATOR_MAP, mkFilterRule, pyUpper, hlike]
  · intro f vs
    simp [FilterParser_parse, jLookup, OPERATOR_MAP, mkFilterRule, pyUpper,
      pyIterable, iterElems]
  · intro f op v h
    simp only [recognizedOps, List.mem_cons, List.not_mem_nil, or_false] at h
    push_neg at h
    obtain ⟨h1, h2, h3, h4, h5, h6, h7, h8, h9, h10⟩ := h
    simp [FilterParser_parse, jLookup, OPERATOR_MAP, h1, h2, h3, h4, h5, h6, h7, h8, h9, h10]

/-- C2 witness: the operator dispatch and the unsupported-operator failure at
concrete inputs. -/
theorem claim_C2_witness :
    SimpleRule_expression ⟨"t", "duckdb"⟩ "age" ">" (.int 18)
      = .ok (.gt (.column "t" "age") (.lit (.num (.int 18))))
    ∧ SimpleRule_expression ⟨"t", "duckdb"⟩ "f" "~" (.int 1)
      = .error (.valueError ("Unsupported operator: " ++ "~"))
    ∧ FilterParser_parse (.obj [("field", .str "f"), ("operator", .str "between"),
        ("value", .int 1)])
      = .error (.valueError ("Unsupported operator: " ++ pyUpper "between")) := by
  refine ⟨?_, ?_, ?_⟩
  · exact (claim_C2.1 ⟨"t", "duckdb"⟩ "age" (.int 18)).2.2.2.2.1
  · exact claim_C2.2.2.1 ⟨"t", "duckdb"⟩ "f" "~" (.int 1) (by decide)
  · exact claim_C2.2.2.2.2.2 "f" "between" (.int 1) (by decide)

/-- C3: `QueryBuilder.combined_condition` folds the validation predicates onto
the filter predicate with AND, filter first then the rules in order, and
returns the filter predicate unmodified when there are no validation rules. -/
theorem claim_C3 :
    ∀ (ds : Dataset) (root : FilterNode) (rules : List ValidationRule)
      (f : Expr) (rs : List Expr),
    FilterNode_expression ds root = .ok f →
    ruleExprList ds rules = .ok rs →
    combined_condition ⟨ds, root, rules⟩ = .ok (rs.foldl Expr.andE f)
    ∧ (rules = [] → combined_condition ⟨ds, root, rules⟩ = .ok f) := by
  intro ds root rules f rs h1 h2
  constructor
  · simp only [combined_condition]
    rw [h1, h2]
    cases rs with
    | nil => simp
    | cons r rest => simp [exp_and]
  · intro hrules
    subst hrules
    simp only [ruleExprList] at h2
    injection h2 with h2
    subst h2
    simp only [combined_condition]
    rw [h1]
    simp [ruleExprList]

/-- C3 witness: combining `field1 = 'v1'` with `NotNull(field1)` yields
`(field1 = 'v1') AND (field1 IS NOT NULL)`, filter term first; with no
validation rules the filter predicate comes back unmodified. -/
theorem claim_C3_witness :
    combined_condition ⟨⟨"t", "duckdb"⟩, .simple "field1" "=" (.str "v1"),
        [.notNull "field1"]⟩
      = .ok (.andE (.eq (.column "t" "field1") (.lit (.str "v1")))
          (.isNotE (.column "t" "field1") .null_))
    ∧ combined_condition ⟨⟨"t", "duckdb"⟩, .simple "field1" "=" (.str "v1"), []⟩
      = .ok (.eq (.column "t" "field1") (.lit (.str "v1"))) := by
  have hf : FilterNode_expression ⟨"t", "duckdb"⟩ (.simple "field1" "=" (.str "v1"))
      = .ok (.eq (.column "t" "field1") (.lit (.str "v1"))) := by
    simp [FilterNode_expression, SimpleRule_expression, pyUpper, Dataset.column_expr, to_literal]
  have hr : ruleExprList ⟨"t", "duckdb"⟩ [.notNull "field1"]
      = .ok [.isNotE (.column "t" "field1") .null_] := by
    simp [ruleExprList, ValidationRule_expression, Dataset.column_expr]
  refine ⟨(claim_C3 _ _ _ _ _ hf hr).1, ?_⟩
  exact (claim_C3 ⟨"t", "duckdb"⟩ (.simple "field1" "=" (.str "v1")) [] _ []
    hf (by simp [ruleExprList])).2 rfl

/-- C4: in column-projection mode `generate_sql` projects exactly the
spec-side column list: the pre-order leaf fields of the filter tree followed
by the validation rules' columns, de-duplicated keeping each name at its
first occurrence, and that list contains no duplicates. -/
theorem claim_C4 :
    ∀ (qb : QueryBuilder) (w : Expr),
    combined_condition qb = .ok w →
    generate_sql qb false
      = .ok ⟨false,
          (specProjection (collect qb.filter_root
            ++ List.flatten (qb.validation_rules.map ruleCols))).map qb.dataset.column_expr,
          qb.dataset.table_name, w⟩
    ∧ (specProjection (collect qb.filter_root
        ++ List.flatten (qb.validation_rules.map ruleCols))).Nodup := by
  intro qb w h
  constructor
  · simp [generate_sql, h, specProjection_eq_dedupFirst]
  · rw [specProjection_eq_dedupFirst]
    exact nodup_dedupFirstAux [] _

/-- C4 witness: a filter tree and rule list whose referenced columns overlap;
the projection keeps `a`, `b`, `c` at their first occurrences, without
duplicates. -/
theorem claim_C4_witness :
    generate_sql ⟨⟨"t", "duckdb"⟩,
        .group "AND" [.simple "a" "=" (.str "x"), .simple "b" ">" (.int 1)],
        [.notNull "a", .uniqueValues ["c", "a"]]⟩ false
      = .ok ⟨false, [.column "t" "a", .column "t" "b", .column "t" "c"], "t",
          .andE (.andE (.andE (.eq (.column "t" "a") (.lit (.str "x")))
                (.gt (.column "t" "b") (.lit (.num (.int 1)))))
              (.isNotE (.column "t" "a") .null_))
            (.eq (.count .star false)
              (.count (.tuple [.column "t" "c", .column "t" "a"]) true))⟩
    ∧ (specProjection ["a", "b", "a", "c", "a"]).Nodup := by
  have h : combined_condition ⟨⟨"t", "duckdb"⟩,
      .group "AND" [.simple "a" "=" (.str "x"), .simple "b" ">" (.int 1)],
      [.notNull "a", .uniqueValues ["c", "a"]]⟩
      = .ok (.andE (.andE (.andE (.eq (.column "t" "a") (.lit (.str "x")))
            (.gt (.column "t" "b") (.lit (.num (.int 1)))))
          (.isNotE (.column "t" "a") .null_))
        (.eq (.count .star false)
          (.count (.tuple [.column "t" "c", .column "t" "a"]) true))) := by
    simp [combined_condition, FilterNode_expression, FilterNode_expressionList,
      SimpleRule_expression, ruleExprList, ValidationRule_expression, pyUpper,
      Dataset.column_expr, to_literal, exp_and]
  obtain ⟨h1, h2⟩ := claim_C4 _ _ h
  constructor
  · rw [h1]
    simp [collect, collectList, ruleCols, specProjection, Dataset.column_expr]
  · have : collect (.group "AND" [.simple "a" "=" (.str "x"), .simple "b" ">" (.int 1)])
        ++ List.flatten (([ValidationRule.notNull "a",
            ValidationRule.uniqueValues ["c", "a"]]).map ruleCols)
        = ["a", "b", "a", "c", "a"] := by
      simp [collect, collectList, ruleCols]
    rw [← this]
    exact h2

/-- C5 counterexample: the literal coercion of the source is total — a
boolean (likewise `None` or a dict) is silently sent through the non-string
branch to a numeric literal, and compiling such a leaf succeeds; no
`UnsupportedLiteralKind`-style failure exists. -/
theorem claim_C5_counterexample :
    to_literal (.bool true) = .num (.bool true)
    ∧ to_literal .none = .num .none
    ∧ to_literal (.obj [("k", .int 1)]) = .num (.obj [("k", .int 1)])
    ∧ SimpleRule_expression ⟨"t", "snowflake"⟩ "f" "=" (.bool true)
      = .ok (.eq (.column "t" "f") (.lit (.num (.bool true)))) := by
  refine ⟨rfl, rfl, rfl, ?_⟩
  simp [SimpleRule_expression, pyUpper, Dataset.column_expr, to_literal]

/-- C5 amended: literal coercion maps a string to a string literal and every
other value — booleans, `None` and non-scalar objects included — to a numeric
literal; it never fails, and leaf compilation succeeds on such values. -/
theorem claim_C5_amended :
    (∀ s, to_literal (.str s) = .str s)
    ∧ (∀ (ds : Dataset) (f : String) (v : PyVal),
        SimpleRule_expression ds f "=" v
          = .ok (.eq (ds.column_expr f) (.lit (to_literal v))))
    ∧ (∀ b, to_literal (.bool b) = .num (.bool b))
    ∧ to_literal .none = .num .none
    ∧ (∀ fs, to_literal (.obj fs) = .num (.obj fs)) := by
  refine ⟨fun s => rfl, ?_, fun b => rfl, rfl, fun fs => rfl⟩
  intro ds f v
  simp [SimpleRule_expression, pyUpper]

/-- C6 counterexample: `FilterParser.parse` accepts a plain string as the
value of `IN` (a string is iterable) and stores its characters as the
membership values, instead of rejecting it. -/
theorem claim_C6_counterexample :
    FilterParser_parse (.obj [("field", .str "f"), ("operator", .str "IN"),
        ("value", .str "ab")])
      = .ok (.inF "f" [.str "a", .str "b"]) := by
  simp [FilterParser_parse, jLookup, OPERATOR_MAP, mkFilterRule, pyUpper,
    pyIterable, iterElems]
  exact ⟨rfl, rfl⟩

/-- C6 amended: in `advanced_filter_validator`, an `IN` leaf fails unless its
value is an iterable other than str/bytes (element scalarity is never
checked); in `class_based_filter`, only non-iterable values are rejected — a
single string is accepted and treated as the sequence of its one-character
strings. -/
theorem claim_C6_amended :
    (∀ (ds : Dataset) (f : String) (v : PyVal),
      pyIterable v = false ∨ pyStrOrBytes v = true →
      SimpleRule_expression ds f "IN" v
        = .error (.valueError "IN operator requires a sequence of values"))
    ∧ (∀ (ds : Dataset) (f s : String),
      SimpleRule_expression ds f "IN" (.str s)
        = .error (.valueError "IN operator requires a sequence of values"))
    ∧ (∀ (ds : Dataset) (f : String) (bs : List Nat),
      SimpleRule_expression ds f "IN" (.bytes bs)
        = .error (.valueError "IN operator requires a sequence of values"))
    ∧ (∀ (f : String) (v : PyVal),
      pyIterable v = false →
      FilterParser_parse (.obj [("field", .str f), ("operator", .str "IN"), ("value", v)])
        = .error (.valueError "IN operator requires a list of values"))
    ∧ (∀ (f s : String),
      FilterParser_parse (.obj [("field", .str f), ("operator", .str "IN"),
          ("value", .str s)])
        = .ok (.inF f (iterElems (.str s)))) := by
  refine ⟨?_, ?_, ?_, ?_, ?_⟩
  · intro ds f v h
    rcases h with h | h <;> simp [SimpleRule_expression, pyUpper, h]
  · intro ds f s
    simp [SimpleRule_expression, pyUpper, pyStrOrBytes]
  · intro ds f bs
    simp [SimpleRule_expression, pyUpper, pyStrOrBytes]
  · intro f v h
    simp [FilterParser_parse, jLookup, OPERATOR_MAP, pyUpper, h]
  · intro f s
    simp [FilterParser_parse, jLookup, OPERATOR_MAP, mkFilterRule, pyUpper, pyIterable]

/-- C6 amended witness: the rejection clauses at concrete non-iterable
inputs. -/
theorem claim_C6_amended_witness :
    SimpleRule_expression ⟨"t", "snowflake"⟩ "f" "IN" (.int 3)
      = .error (.valueError "IN operator requires a sequence of values")
    ∧ FilterParser_parse (.obj [("field", .str "f"), ("operator", .str "IN"),
        ("value", .int 3)])
      = .error (.valueError "IN operator requires a list of values") := by
  exact ⟨claim_C6_amended.1 ⟨"t", "snowflake"⟩ "f" (.int 3) (Or.inl rfl),
    claim_C6_amended.2.2.2.1 "f" (.int 3) rfl⟩

/-- C7 counterexample: compiling an `IN` leaf whose values list is empty
succeeds, emitting a membership predicate over an empty literal list — there
is no `EmptyMembershipSet` check. -/
theorem claim_C7_counterexample :
    SimpleRule_expression ⟨"t", "snowflake"⟩ "f" "IN" (.list [])
      = .ok (.inE (.column "t" "f") []) := by
  simp [SimpleRule_expression, pyUpper, Dataset.column_expr, pyIterable,
    pyStrOrBytes, iterElems]

/-- C7 amended: an empty membership set compiles successfully to a membership
predicate over an empty literal list, in both filter implementations. -/
theorem claim_C7_amended :
    (∀ (ds : Dataset) (f : String),
      SimpleRule_expression ds f "IN" (.list [])
        = .ok (.inE (ds.column_expr f) []))
    ∧ (∀ (ds : Dataset) (f : String),
      CBRule_expression ds (.inF f []) = .inE (ds.column_expr f) []) := by
  constructor
  · intro ds f
    simp [SimpleRule_expression, pyUpper, pyIterable, pyStrOrBytes, iterElems]
  · intro ds f
    simp [CBRule_expression]

/-- C8: `UniqueValuesRule.expression` (in both `advanced_filter_validator` and
`dataset_validator`) compiles a non-empty column sequence to
`COUNT(*) = COUNT(DISTINCT key)`, the key being the single qualified column
for length 1 and a tuple over all qualified columns, in order, otherwise. -/
theorem claim_C8 :
    (∀ (ds : Dataset) (c : String),
      ValidationRule_expression ds (.uniqueValues [c])
        = .ok (.eq (.count .star false) (.count (ds.column_expr c) true)))
    ∧ (∀ (ds : Dataset) (c d : String) (rest : List String),
      ValidationRule_expression ds (.uniqueValues (c :: d :: rest))
        = .ok (.eq (.count .star false)
            (.count (.tuple ((c :: d :: rest).map ds.column_expr)) true)))
    ∧ (∀ (ds : Dataset) (c : String),
      dv_UniqueValuesRule_expression ds [c]
        = .eq (.count .star false) (.count (ds.column_expr c) true))
    ∧ (∀ (ds : Dataset) (c d : String) (rest : List String),
      dv_UniqueValuesRule_expression ds (c :: d :: rest)
        = .eq (.count .star false)
            (.count (.tuple ((c :: d :: rest).map ds.column_expr)) true)) := by
  refine ⟨?_, ?_, ?_, ?_⟩ <;> intros <;>
    simp [ValidationRule_expression, dv_UniqueValuesRule_expression]

/-- C9: `RangeRule` (in both modules) rejects construction with both bounds
absent, ANDs the two comparison predicates when both bounds are present, and
returns the single bound's comparison unwrapped when only one is present. -/
theorem claim_C9 :
    (∀ c : String, RangeRule_mk c Option.none Option.none
      = .error (.valueError "At least one of minimum or maximum must be provided"))
    ∧ (∀ (c : String) (m M : Int),
      RangeRule_mk c (some m) (some M) = .ok (.rangeRule c (some m) (some M)))
    ∧ (∀ (ds : Dataset) (c : String) (m M : Int),
      ValidationRule_expression ds (.rangeRule c (some m) (some M))
        = .ok (.andE (.gte (ds.column_expr c) (.lit (.num (.int m))))
            (.lte (ds.column_expr c) (.lit (.num (.int M))))))
    ∧ (∀ (ds : Dataset) (c : String) (m : Int),
      ValidationRule_expression ds (.rangeRule c (some m) Option.none)
        = .ok (.gte (ds.column_expr c) (.lit (.num (.int m)))))
    ∧ (∀ (ds : Dataset) (c : String) (M : Int),
      ValidationRule_expression ds (.rangeRule c Option.none (some M))
        = .ok (.lte (ds.column_expr c) (.lit (.num (.int M)))))
    ∧ (∀ c : String, dv_RangeRule_mk c Option.none Option.none
      = .error (.valueError "At least one of minimum or maximum must be provided"))
    ∧ (∀ (ds : Dataset) (c : String) (m M : Int),
      dv_RangeRule_expression ds c (some m) (some M)
        = .ok (.andE (.gte (ds.column_expr c) (.lit (.num (.int m))))
            (.lte (ds.column_expr c) (.lit (.num (.int M))))))
    ∧ (∀ (ds : Dataset) (c : String) (m : Int),
      dv_RangeRule_expression ds c (some m) Option.none
        = .ok (.gte (ds.column_expr c) (.lit (.num (.int m)))))
    ∧ (∀ (ds : Dataset) (c : String) (M : Int),
      dv_RangeRule_expression ds c Option.none (some M)
        = .ok (.lte (ds.column_expr c) (.lit (.num (.int M))))) := by
  refine ⟨?_, ?_, ?_, ?_, ?_, ?_, ?_, ?_, ?_⟩ <;> intros <;>
    simp [RangeRule_mk, dv_RangeRule_mk, ValidationRule_expression,
      dv_RangeRule_expression, exp_and]

/-- C10: a JSON leaf carrying `field` and `operator` but no `value` parses
successfully with `None` as its value (silent defaulting, in both parsers),
and that `None` is later sent through the non-string branch of literal
coercion, producing a numeric literal at compile time. -/
theorem claim_C10 :
    ∀ (fields : List (String × PyVal)) (f op : String),
    jLookup fields "field" = some (.str f) →
    jLookup fields "operator" = some (.str op) →
    jLookup fields "value" = Option.none →
    afv_parse (.obj fields) = .ok (.simple f op .none)
    ∧ to_literal .none = .num .none
    ∧ (∀ ds : Dataset, SimpleRule_expression ds f "=" .none
        = .ok (.eq (ds.column_expr f) (.lit (.num .none))))
    ∧ (∀ g : String,
      FilterParser_parse (.obj [("field", .str g), ("operator", .str "=")])
        = .ok (.equalsF g .none))
    ∧ (∀ (ds : Dataset) (g : String), CBRule_expression ds (.equalsF g .none)
        = .eq (ds.column_expr g) (.lit (.num .none))) := by
  intro fields f op h1 h2 h3
  refine ⟨?_, rfl, ?_, ?_, ?_⟩
  · simp [afv_parse, h1, h2, h3]
  · intro ds
    simp [SimpleRule_expression, pyUpper, to_literal]
  · intro g
    simp [FilterParser_parse, jLookup, OPERATOR_MAP, mkFilterRule, pyUpper]
  · intro ds g
    simp [CBRule_expression, to_literal]

/-- C10 witness: a concrete leaf without a `value` key. -/
theorem claim_C10_witness :
    afv_parse (.obj [("field", .str "a"), ("operator", .str "=")])
      = .ok (.simple "a" "=" .none)
    ∧ SimpleRule_expression ⟨"t", "duckdb"⟩ "a" "=" .none
      = .ok (.eq (.column "t" "a") (.lit (.num .none))) := by
  obtain ⟨p1, _, p3, _, _⟩ :=
    claim_C10 [("field", .str "a"), ("operator", .str "=")] "a" "=" rfl rfl rfl
  exact ⟨p1, p3 ⟨"t", "duckdb"⟩⟩
